import Mathlib

/-!
Shallow embedding of the core pipeline of `pdf-large-reader`
(`src/assessment.py` and `src/streaming.py`) and proofs about it.

Modelling conventions:
* Python ints are `Nat` (all quantities here are sizes/counts, never negative);
  Python `//` on them is `Nat` division guarded for a zero divisor, since
  Python raises `ZeroDivisionError` there.
* Python floats are `ℚ`; the literals `0.5`, `0.3`, `1.2`, `0.1` become
  `1/2`, `3/10`, `6/5`, `1/10`; `int(x)` on a non-negative float is the floor.
* A `fitz` document is a `PDFDoc` value: the engine-facing data the code
  actually reads (encryption flag, the two metadata keys it consults, and per
  page the font names, image-extraction results and `get_text()` outcome).
  `none` entries model calls into the engine that raise.
* Functions that can raise return `Except`; generator functions are modelled
  by the full trace the generator produces when driven to exhaustion
  (yielded elements, progress-callback invocations, propagated exception).
* Opaque values not consulted by the code (page geometry metadata, PIL image
  payloads, the `details` dict on issues) are left out or reduced to handles.
-/

deriving instance DecidableEq for Except

namespace PdfLargeReader

/-! ### Character-list helpers: Python's `pat in s` and `s.startswith(pat)` -/

/-- Python `s.startswith(pat)` on the code-point lists of the two strings. -/
def startsWithL : List Char → List Char → Bool
  | [], _ => true
  | _ :: _, [] => false
  | p :: ps, c :: cs => p == c && startsWithL ps cs

/-- Python `pat in s` (substring containment) on code-point lists. -/
def hasSubstr (pat : List Char) : List Char → Bool
  | [] => pat.isEmpty
  | c :: rest => startsWithL pat (c :: rest) || hasSubstr pat rest

/-- Python `pat in s` for strings. -/
def strContains (s pat : String) : Bool := hasSubstr pat.toList s.toList

/-- Python `s.startswith(pat)` for strings. -/
def strStartsWith (s pat : String) : Bool := startsWithL pat.toList s.toList

/-! ### Data model (assessment.py dataclasses) -/

/-- `MemoryEstimate` dataclass (assessment.py). -/
structure MemoryEstimate where
  min_memory : Nat
  recommended_memory : Nat
  peak_memory : Nat
  per_page_avg : Nat
deriving DecidableEq

/-- `PDFIssue` dataclass (assessment.py); the opaque `details` dict is not
modelled. -/
structure PDFIssue where
  issue_type : String
  severity : String
  message : String
  page_number : Option Nat := none
deriving DecidableEq

/-- `PDFAnalysis` dataclass (assessment.py); the `metadata` dict is not
modelled (no claim consults it). -/
structure PDFAnalysis where
  file_size : Nat
  page_count : Nat
  estimated_memory : Nat
  complexity_score : ℚ
  recommended_strategy : String
  issues : List String
deriving DecidableEq

/-- The per-page data the code reads from the engine: font names from
`page.get_fonts` (entry 3 of each tuple), the per-image result of
`doc.extract_image` (`none` = that extraction raises and is skipped), and the
outcome of `page.get_text()`. -/
structure PageData where
  fonts : List String
  images : List (Option Nat)
  text : Except String String
deriving DecidableEq

/-- The document data the code reads from a successfully opened `fitz`
document: `doc.is_encrypted`, `doc.metadata.get("encryption", "")`,
`doc.metadata.get("format", "")`, and the pages (`none` = `doc[i]` raises). -/
structure PDFDoc where
  is_encrypted : Bool
  encryption_meta : String
  format_meta : String
  pages : List (Option PageData)
deriving DecidableEq

/-- `doc.page_count`. -/
def PDFDoc.page_count (d : PDFDoc) : Nat := d.pages.length

/-- Exceptions raised by the assessment module: `FileNotFoundError` and
`ValueError` ("Invalid PDF file"). -/
inductive AssessError
  | fileNotFound (msg : String)
  | invalidPDF (msg : String)
deriving DecidableEq

/-! ### assessment.py: `_calculate_complexity_score` -/

/-- Factor 1 of `_calculate_complexity_score`: file size per page (0-30
points).  `size_per_page = file_size / page_count if page_count > 0 else 0`
is Python true division, hence `ℚ`. -/
def complexityFactorSize (file_size page_count : Nat) : ℚ :=
  let size_per_page : ℚ :=
    if page_count > 0 then (file_size : ℚ) / (page_count : ℚ) else 0
  if size_per_page > 500 * 1024 then 30
  else if size_per_page > 200 * 1024 then 20
  else if size_per_page > 100 * 1024 then 10
  else 0

/-- Factor 2 of `_calculate_complexity_score`: total page count (0-20
points). -/
def complexityFactorPages (page_count : Nat) : ℚ :=
  if page_count > 1000 then 20
  else if page_count > 500 then 15
  else if page_count > 100 then 10
  else if page_count > 50 then 5
  else 0

/-- The pages sampled by Factor 3: `doc[i]` for `i < min 3 page_count`. -/
def sampledPages (doc : PDFDoc) (page_count : Nat) : List (Option PageData) :=
  (List.range (min 3 page_count)).map (fun i => doc.pages.getD i none)

/-- Factor 3, failure part: each sampled page whose access raises adds 10
("if page access fails, assume complex") and sampling continues. -/
def complexitySampleFailures (doc : PDFDoc) (page_count : Nat) : ℚ :=
  10 * ((sampledPages doc page_count).countP (fun p => p.isNone))

/-- Factor 3, image part: `avg_images = total_images / pages_to_sample`
(true division) over the accessible sampled pages, then 15/10/5 points. -/
def complexityImageScore (doc : PDFDoc) (page_count : Nat) : ℚ :=
  let total_images : Nat :=
    (((sampledPages doc page_count).filterMap id).map
      (fun p => p.images.length)).sum
  let avg_images : ℚ :=
    if min 3 page_count > 0 then (total_images : ℚ) / (min 3 page_count : ℚ)
    else 0
  if avg_images > 5 then 15
  else if avg_images > 2 then 10
  else if avg_images > 0 then 5
  else 0

/-- Factor 3, font part: `avg_fonts = total_fonts / pages_to_sample`
(true division) over the accessible sampled pages, then 15/10/5 points. -/
def complexityFontScore (doc : PDFDoc) (page_count : Nat) : ℚ :=
  let total_fonts : Nat :=
    (((sampledPages doc page_count).filterMap id).map
      (fun p => p.fonts.length)).sum
  let avg_fonts : ℚ :=
    if min 3 page_count > 0 then (total_fonts : ℚ) / (min 3 page_count : ℚ)
    else 0
  if avg_fonts > 10 then 15
  else if avg_fonts > 5 then 10
  else if avg_fonts > 2 then 5
  else 0

/-- Factor 4 of `_calculate_complexity_score`: metadata complexity (0-10
points). -/
def complexityFactorMeta (doc : PDFDoc) : ℚ :=
  if doc.is_encrypted then 10
  else if doc.encryption_meta ≠ "" then 5
  else 0

/-- Factor 5 of `_calculate_complexity_score`: format version (0-10
points); `"1.7" in pdf_format` is substring containment. -/
def complexityFactorFormat (doc : PDFDoc) : ℚ :=
  if strContains doc.format_meta "1.7" || strContains doc.format_meta "2.0"
  then 10
  else if strContains doc.format_meta "1.6" || strContains doc.format_meta "1.5"
  then 5
  else 0

/-- `_calculate_complexity_score(doc, file_size, page_count)`: the capped
weighted sum of the five factors, `min(score, 100.0)`. -/
def _calculate_complexity_score (doc : PDFDoc) (file_size page_count : Nat) : ℚ :=
  min (complexityFactorSize file_size page_count
        + complexityFactorPages page_count
        + complexitySampleFailures doc page_count
        + complexityImageScore doc page_count
        + complexityFontScore doc page_count
        + complexityFactorMeta doc
        + complexityFactorFormat doc)
    100

/-! ### assessment.py: `estimate_memory_usage` -/

/-- The memory-estimation formulas of `estimate_memory_usage`, a pure
function of file size and page count (the function's path validation and
open are the same as `assess_pdf`'s and only feed it these two numbers).
`peak_memory = int((base + avg*10) * 1.2)`: for a non-negative integer `x`,
`int(x * 1.2)` is `⌊6x/5⌋`, i.e. `x * 6 / 5` in `Nat` division. -/
def estimate_memory_usage (file_size page_count : Nat) : MemoryEstimate :=
  let base_memory := file_size
  let size_per_page : ℚ :=
    if page_count > 0 then (file_size : ℚ) / (page_count : ℚ) else 0
  let avg_per_page : Nat :=
    if size_per_page > 200 * 1024 then 10 * 1024 * 1024
    else if size_per_page < 50 * 1024 then 2 * 1024 * 1024
    else 5 * 1024 * 1024
  { min_memory := base_memory + avg_per_page
    recommended_memory := base_memory + avg_per_page * 5
    peak_memory := (base_memory + avg_per_page * 10) * 6 / 5
    per_page_avg := avg_per_page }

/-! ### assessment.py: `detect_pdf_issues` -/

/-- The issues the per-page loop of `detect_pdf_issues` appends for page
index `idx` (0-based): page-access failure, then one issue per missing or
invalid font name, then encoding / extraction issues from `get_text()`.
The encoding check is `text.count("�") > len(text) * 0.1`. -/
def pageIssues (idx : Nat) (p : Option PageData) : List PDFIssue :=
  match p with
  | none =>
      [{ issue_type := "corruption", severity := "high",
         message := "Cannot access page " ++ toString (idx + 1),
         page_number := some (idx + 1) }]
  | some page =>
      (page.fonts.filter
          (fun nm => nm == "" || strStartsWith nm "Invalid")).map
        (fun _ =>
          { issue_type := "missing_fonts", severity := "medium",
            message := "Missing or invalid font on page " ++ toString (idx + 1),
            page_number := some (idx + 1) })
      ++ (match page.text with
          | .error e =>
              [{ issue_type := "extraction", severity := "high",
                 message := "Text extraction failed on page "
                   ++ toString (idx + 1) ++ ": " ++ e,
                 page_number := some (idx + 1) }]
          | .ok t =>
              if ((t.toList.count (Char.ofNat 65533) : ℚ))
                  > (t.toList.length : ℚ) * (1 / 10) then
                [{ issue_type := "encoding", severity := "medium",
                   message := "Possible encoding issues on page "
                     ++ toString (idx + 1),
                   page_number := some (idx + 1) }]
              else [])

/-- The body of `detect_pdf_issues` from `fitz.open` on: an open failure is
converted into a single critical corruption issue; otherwise the encryption
check, the first/last-page corruption probe, then the per-page scan. -/
def detectIssuesOfDoc (openResult : Except String PDFDoc) : List PDFIssue :=
  match openResult with
  | .error e =>
      [{ issue_type := "corruption", severity := "critical",
         message := "Cannot open PDF: " ++ e }]
  | .ok doc =>
      (if doc.is_encrypted then
        [{ issue_type := "encryption", severity := "critical",
           message := "PDF is encrypted and may require password" }]
      else [])
      ++ (if (decide (0 < doc.page_count) && (doc.pages.getD 0 none).isNone)
            || (decide (1 < doc.page_count)
                && (doc.pages.getD (doc.page_count - 1) none).isNone) then
        [{ issue_type := "corruption", severity := "critical",
           message := "PDF may be corrupted: page access raised" }]
      else [])
      ++ (List.range doc.page_count).flatMap
          (fun i => pageIssues i (doc.pages.getD i none))

/-- `detect_pdf_issues(file_path)`: raises `FileNotFoundError` for a missing
path, otherwise never raises — everything after that point, the open
included, accumulates issues instead of failing.  `ex` is whether the path
exists; `openResult` the outcome of `fitz.open`. -/
def detect_pdf_issues (ex : Bool) (openResult : Except String PDFDoc) :
    Except AssessError (List PDFIssue) :=
  if !ex then .error (.fileNotFound "PDF file not found")
  else .ok (detectIssuesOfDoc openResult)

/-! ### assessment.py: `_select_strategy` and `assess_pdf` -/

/-- `_select_strategy(file_size, page_count, complexity_score, issues)`:
the priority cascade over the two size thresholds `MB_10` and `MB_100`. -/
def _select_strategy (file_size page_count : Nat) (complexity_score : ℚ)
    (issues : List PDFIssue) : String :=
  let has_critical_issues := issues.any (fun issue => issue.severity == "critical")
  if has_critical_issues then "stream_pages"
  else if file_size < 10 * 1024 * 1024 ∧ complexity_score < 50 then "full_load"
  else if 100 * 1024 * 1024 ≤ file_size ∨ complexity_score > 70
      ∨ page_count > 500 then "chunk_batch"
  else "stream_pages"

/-- `assess_pdf(file_path)`: `FileNotFoundError` if the path is missing,
`ValueError` if `fitz.open` raises, otherwise the assembled `PDFAnalysis`.
`detect_pdf_issues` reopens the same path; that second open is modelled as
seeing the same document. -/
def assess_pdf (ex : Bool) (file_size : Nat)
    (openResult : Except String PDFDoc) : Except AssessError PDFAnalysis :=
  if !ex then .error (.fileNotFound "PDF file not found")
  else match openResult with
  | .error e => .error (.invalidPDF ("Invalid PDF file: " ++ e))
  | .ok doc =>
      let page_count := doc.page_count
      let complexity_score := _calculate_complexity_score doc file_size page_count
      let issues_list := detectIssuesOfDoc openResult
      .ok { file_size := file_size
            page_count := page_count
            estimated_memory :=
              (estimate_memory_usage file_size page_count).recommended_memory
            complexity_score := complexity_score
            recommended_strategy :=
              _select_strategy file_size page_count complexity_score issues_list
            issues := issues_list.map
              (fun issue => issue.severity.toUpper ++ ": " ++ issue.message) }

/-! ### streaming.py: data model -/

/-- `PDFPage` dataclass (streaming.py): 1-indexed page number, extracted
text, successfully extracted images (failed extractions are skipped with a
warning); the geometry `metadata` dict and the always-`None` `layout` field
are not modelled. -/
structure PDFPage where
  page_number : Nat
  text : String
  images : List Nat
deriving DecidableEq

/-- `ProcessingStrategy` dataclass (streaming.py). -/
structure ProcessingStrategy where
  strategy_type : String
  chunk_size : Nat
  memory_limit : Nat
  estimated_time : ℚ
deriving DecidableEq

/-- Exceptions raised by the streaming module: `FileNotFoundError`, the two
`ValueError` cases, and `ZeroDivisionError` from `//`. -/
inductive StreamError
  | fileNotFound (msg : String)
  | invalidPDF (msg : String)
  | invalidParameter (msg : String)
  | zeroDivision
deriving DecidableEq

/-- Building one `PDFPage` from `doc[i]`: page access or `get_text()`
raising is fatal here (unlike during assessment); a failing
`doc.extract_image` only skips that image. -/
def extract_page (doc : PDFDoc) (i : Nat) : Except String PDFPage :=
  match doc.pages.getD i none with
  | none => .error ("Cannot access page " ++ toString (i + 1))
  | some p =>
      match p.text with
      | .error e => .error e
      | .ok t => .ok { page_number := i + 1, text := t,
                       images := p.images.filterMap id }

/-! ### streaming.py: `stream_pdf_pages` -/

/-- The trace left by driving the `stream_pdf_pages` generator to
exhaustion: the pages yielded, the `(current, total)` arguments of each
progress-callback invocation, and the exception (if any) that propagated
out of the stream. -/
structure StreamRun where
  yielded : List PDFPage
  cbCalls : List (Nat × Nat)
  aborted : Option String
deriving DecidableEq

/-- The page loop of `stream_pdf_pages` over the remaining 0-based page
indices.  Per page: extract (fatal on failure), invoke the callback with
`(page_num + 1, total)` — an exception from the callback propagates, so the
current page is not yielded — then yield. -/
def streamLoop (doc : PDFDoc) (total : Nat)
    (cb : Option (Nat → Nat → Except String Unit)) :
    List Nat → StreamRun
  | [] => { yielded := [], cbCalls := [], aborted := none }
  | i :: rest =>
    match extract_page doc i with
    | .error e => { yielded := [], cbCalls := [], aborted := some e }
    | .ok pg =>
      match cb with
      | none =>
          let r := streamLoop doc total cb rest
          { yielded := pg :: r.yielded, cbCalls := r.cbCalls,
            aborted := r.aborted }
      | some f =>
          match f (i + 1) total with
          | .error e =>
              { yielded := [], cbCalls := [(i + 1, total)], aborted := some e }
          | .ok _ =>
              let r := streamLoop doc total cb rest
              { yielded := pg :: r.yielded,
                cbCalls := (i + 1, total) :: r.cbCalls, aborted := r.aborted }

/-- `stream_pdf_pages(file_path, progress_callback=cb)`: missing path and
open failure raise before the first yield; otherwise the generator runs
`for page_num in range(total_pages)`. -/
def stream_pdf_pages (ex : Bool) (openResult : Except String PDFDoc)
    (cb : Option (Nat → Nat → Except String Unit)) :
    Except StreamError StreamRun :=
  if !ex then .error (.fileNotFound "PDF file not found")
  else match openResult with
  | .error e => .error (.invalidPDF ("Invalid PDF file: " ++ e))
  | .ok doc => .ok (streamLoop doc doc.page_count cb (List.range doc.page_count))

/-! ### streaming.py: `chunk_pdf` -/

/-- The body of one chunk's `for page_num in range(start, end)` loop:
extract each page in turn into the chunk list, the first failure
propagating. -/
def extractPages (doc : PDFDoc) : List Nat → Except String (List PDFPage)
  | [] => .ok []
  | i :: rest =>
    match extract_page doc i with
    | .error e => .error e
    | .ok pg =>
        match extractPages doc rest with
        | .error e => .error e
        | .ok chunk => .ok (pg :: chunk)

/-- Extracting the pages of one chunk, `for page_num in range(start, end)`. -/
def extractRange (doc : PDFDoc) (start endPage : Nat) :
    Except String (List PDFPage) :=
  extractPages doc (List.range' start (endPage - start))

/-- The `while start_page < total_pages` loop of `chunk_pdf`, written with a
fuel argument so that the recursion is structural: each iteration advances
`start_page` by `step_size = chunk_pages - overlap ≥ 1` (the parameter check
in `chunk_pdf` guarantees `overlap < chunk_pages`), so `total` iterations of
fuel always suffice and the fuel-exhausted branch is unreachable from
`chunk_pdf`.  Returns the chunks yielded and the exception (if any) that
aborted the generator. -/
def chunkLoop (doc : PDFDoc) (total chunk_pages overlap : Nat) :
    Nat → Nat → List (List PDFPage) × Option String
  | _, 0 => ([], none)
  | start, fuel + 1 =>
    if start < total then
      match extractRange doc start (min (start + chunk_pages) total) with
      | .error e => ([], some e)
      | .ok chunk =>
          let r := chunkLoop doc total chunk_pages overlap
            (start + (chunk_pages - overlap)) fuel
          (chunk :: r.1, r.2)
    else ([], none)

/-- `chunk_pdf(file_path, chunk_pages, overlap)`: the parameter check
`overlap >= chunk_pages` comes first (before the existence check and before
`fitz.open`), then missing path, then open failure; otherwise the chunk
loop runs from `start_page = 0`. -/
def chunk_pdf (chunk_pages overlap : Nat) (ex : Bool)
    (openResult : Except String PDFDoc) :
    Except StreamError (List (List PDFPage) × Option String) :=
  if chunk_pages ≤ overlap then
    .error (.invalidParameter ("Overlap (" ++ toString overlap
      ++ ") must be less than chunk_pages (" ++ toString chunk_pages ++ ")"))
  else if !ex then .error (.fileNotFound "PDF file not found")
  else match openResult with
  | .error e => .error (.invalidPDF ("Invalid PDF file: " ++ e))
  | .ok doc =>
      .ok (chunkLoop doc doc.page_count chunk_pages overlap 0 doc.page_count)

/-! ### streaming.py: `select_strategy` -/

/-- Python `//` on the non-negative integers appearing here:
`ZeroDivisionError` for a zero divisor, floor division otherwise. -/
def pyFloorDiv (a b : Nat) : Except StreamError Nat :=
  if b = 0 then .error .zeroDivision else .ok (a / b)

/-- `select_strategy(pdf_analysis)`: concrete parameters per recommended
strategy.  Float literals: `0.5 = 1/2`, `0.3 = 3/10`; `page_count / 10.0`
is true division in `ℚ`. -/
def select_strategy (a : PDFAnalysis) : Except StreamError ProcessingStrategy :=
  if a.recommended_strategy == "full_load" then
    .ok { strategy_type := a.recommended_strategy
          chunk_size := a.page_count
          memory_limit := a.estimated_memory * 2
          estimated_time := max 1 ((a.page_count : ℚ) / 10) }
  else if a.recommended_strategy == "stream_pages" then
    match pyFloorDiv a.estimated_memory a.page_count with
    | .error e => .error e
    | .ok q =>
        .ok { strategy_type := a.recommended_strategy
              chunk_size := 1
              memory_limit := q * 5
              estimated_time := (a.page_count : ℚ) * (1 / 2) }
  else
    let chunk_size : Nat := if a.complexity_score > 70 then 5 else 10
    match pyFloorDiv a.estimated_memory a.page_count with
    | .error e => .error e
    | .ok q =>
        .ok { strategy_type := a.recommended_strategy
              chunk_size := chunk_size
              memory_limit := q * (chunk_size + 5)
              estimated_time := (a.page_count : ℚ) * (3 / 10) }

/-! ### Concrete documents and small helpers used by the theorems -/

/-- An everywhere-accessible document with `n` empty pages. -/
def trivialDoc (n : Nat) : PDFDoc :=
  { is_encrypted := false, encryption_meta := "", format_meta := "",
    pages := List.replicate n (some { fonts := [], images := [], text := .ok "" }) }

/-- Whether every page of the document can be accessed and its text
extracted, i.e. whether a production stream over it runs without a fatal
per-page failure. -/
def PDFDoc.readable (d : PDFDoc) : Bool :=
  d.pages.all (fun p => match p with
    | none => false
    | some q => q.text.isOk)

/-- The last `n` elements of a list. -/
def lastN (n : Nat) (l : List α) : List α := l.drop (l.length - n)

/-- The page-number contents of the windows produced by `chunkLoop`: window
starting at 0-based `start` holds 1-based pages `start+1 … min (start+C) total`,
and the next window starts `C - O` further.  Used to reason about
`chunkLoop` uniformly. -/
def numWindows (total C O : Nat) : Nat → Nat → List (List Nat)
  | _, 0 => []
  | start, fuel + 1 =>
    if start < total then
      List.range' (start + 1) (min (start + C) total - start)
        :: numWindows total C O (start + (C - O)) fuel
    else []

/-! ## Supporting lemmas -/

lemma complexityFactorSize_nonneg (fs pc : Nat) :
    0 ≤ complexityFactorSize fs pc := by
  simp only [complexityFactorSize]
  split_ifs <;> norm_num

lemma complexityFactorPages_nonneg (pc : Nat) :
    0 ≤ complexityFactorPages pc := by
  simp only [complexityFactorPages]
  split_ifs <;> norm_num

lemma complexitySampleFailures_nonneg (doc : PDFDoc) (pc : Nat) :
    0 ≤ complexitySampleFailures doc pc := by
  simp only [complexitySampleFailures]
  positivity

lemma complexityImageScore_nonneg (doc : PDFDoc) (pc : Nat) :
    0 ≤ complexityImageScore doc pc := by
  simp only [complexityImageScore]
  split_ifs <;> norm_num

lemma complexityFontScore_nonneg (doc : PDFDoc) (pc : Nat) :
    0 ≤ complexityFontScore doc pc := by
  simp only [complexityFontScore]
  split_ifs <;> norm_num

lemma complexityFactorMeta_nonneg (doc : PDFDoc) :
    0 ≤ complexityFactorMeta doc := by
  simp only [complexityFactorMeta]
  split_ifs <;> norm_num

lemma complexityFactorFormat_nonneg (doc : PDFDoc) :
    0 ≤ complexityFactorFormat doc := by
  simp only [complexityFactorFormat]
  split_ifs <;> norm_num

lemma range'_take : ∀ (n s k : Nat),
    (List.range' s n).take k = List.range' s (min k n) := by
  intro n
  induction n with
  | zero => intro s k; simp
  | succ m ih =>
      intro s k
      cases k with
      | zero => simp
      | succ j =>
          simp only [List.range'_succ, List.take_succ_cons, ih,
            Nat.succ_min_succ]

lemma range'_drop : ∀ (n s k : Nat),
    (List.range' s n).drop k = List.range' (s + k) (n - k) := by
  intro n
  induction n with
  | zero => intro s k; simp
  | succ m ih =>
      intro s k
      cases k with
      | zero => simp
      | succ j =>
          simp only [List.range'_succ, List.drop_succ_cons, ih]
          congr 1 <;> omega

lemma readable_extract_page (d : PDFDoc) (hr : d.readable = true) (i : Nat)
    (hi : i < d.pages.length) :
    ∃ pg, extract_page d i = .ok pg ∧ pg.page_number = i + 1 := by
  unfold PDFDoc.readable at hr
  rw [List.all_eq_true] at hr
  have hmem : d.pages.getD i none ∈ d.pages := by
    rw [List.getD_eq_getElem _ _ hi]
    exact List.getElem_mem hi
  have hok := hr _ hmem
  cases hp : d.pages.getD i none with
  | none => rw [hp] at hok; simp at hok
  | some q =>
      rw [hp] at hok
      have hok2 : q.text.isOk = true := hok
      cases ht : q.text with
      | error e =>
          rw [ht] at hok2
          simp [Except.isOk, Except.toBool] at hok2
      | ok t =>
          refine ⟨{ page_number := i + 1, text := t,
                    images := q.images.filterMap id }, ?_, rfl⟩
          unfold extract_page
          rw [hp]
          simp only [ht]

lemma extractRange_ok (d : PDFDoc) (hr : d.readable = true) :
    ∀ (n s : Nat), s + n ≤ d.pages.length →
    ∃ ws, extractRange d s (s + n) = .ok ws
      ∧ ws.map PDFPage.page_number = List.range' (s + 1) n := by
  intro n
  induction n with
  | zero =>
      intro s _
      exact ⟨[], by simp [extractRange, extractPages], by simp⟩
  | succ m ih =>
      intro s hs
      obtain ⟨pg, hpg, hpn⟩ := readable_extract_page d hr s (by omega)
      obtain ⟨ws, hws, hmap⟩ := ih (s + 1) (by omega)
      refine ⟨pg :: ws, ?_, ?_⟩
      · have h1 : s + (m + 1) - s = m + 1 := by omega
        have h2 : s + 1 + m - (s + 1) = m := by omega
        unfold extractRange at hws ⊢
        rw [h2] at hws
        rw [h1, List.range'_succ]
        simp only [extractPages, hpg, hws]
      · simp [hmap, hpn, List.range'_succ]

lemma chunkLoop_spec (d : PDFDoc) (hr : d.readable = true)
    (C O : Nat) :
    ∀ (fuel start : Nat),
    (chunkLoop d d.page_count C O start fuel).2 = none
    ∧ (chunkLoop d d.page_count C O start fuel).1.map
        (fun w => w.map PDFPage.page_number)
      = numWindows d.page_count C O start fuel := by
  intro fuel
  induction fuel with
  | zero => intro s; simp [chunkLoop, numWindows]
  | succ f ih =>
      intro s
      by_cases hs : s < d.page_count
      · have hsle : s ≤ min (s + C) d.page_count :=
          le_min (Nat.le_add_right s C) (Nat.le_of_lt hs)
        have hle : s + (min (s + C) d.page_count - s) ≤ d.pages.length := by
          have h1 : min (s + C) d.page_count ≤ d.page_count :=
            Nat.min_le_right _ _
          have h2 : d.page_count = d.pages.length := rfl
          omega
        obtain ⟨ws, hws, hmap⟩ :=
          extractRange_ok d hr (min (s + C) d.page_count - s) s hle
        have hmin : s + (min (s + C) d.page_count - s)
            = min (s + C) d.page_count := by omega
        rw [hmin] at hws
        refine ⟨?_, ?_⟩
        · simp only [chunkLoop, if_pos hs, hws]
          exact (ih (s + (C - O))).1
        · simp only [chunkLoop, numWindows, if_pos hs, hws, List.map_cons]
          rw [hmap, (ih (s + (C - O))).2]
      · exact ⟨by simp [chunkLoop, hs], by simp [chunkLoop, numWindows, hs]⟩

lemma numWindows_flatten (total C O : Nat) (hOC : O < C) :
    ∀ (fuel start : Nat), total - start ≤ fuel →
    ((numWindows total C O start fuel).map (fun w => w.take (C - O))).flatten
      = List.range' (start + 1) (total - start) := by
  intro fuel
  induction fuel with
  | zero =>
      intro s hs
      have h0 : total - s = 0 := by omega
      simp [numWindows, h0]
  | succ f ih =>
      intro s hfuel
      by_cases hs : s < total
      · have hIH := ih (s + (C - O)) (by omega)
        simp only [numWindows, if_pos hs, List.map_cons, List.flatten_cons,
          hIH, range'_take]
        by_cases hcase : s + (C - O) < total
        · have hm : min (C - O) (min (s + C) total - s) = C - O := by omega
          rw [hm]
          have ht : total - (s + (C - O)) = total - s - (C - O) := by omega
          rw [ht, show s + (C - O) + 1 = s + 1 + (C - O) from by omega]
          have happ := List.range'_append (s + 1) (C - O)
            (total - s - (C - O)) 1
          simp only [one_mul] at happ
          rw [happ]
          congr 1
          omega
        · have hm : min (C - O) (min (s + C) total - s) = total - s := by
            omega
          have ht : total - (s + (C - O)) = 0 := by omega
          rw [hm, ht]
          simp
      · have h0 : total - s = 0 := by omega
        simp [numWindows, hs, h0]

lemma numWindows_getD (total C O : Nat) :
    ∀ (fuel start k : Nat),
      k < (numWindows total C O start fuel).length →
      (numWindows total C O start fuel).getD k []
        = List.range' (start + k * (C - O) + 1)
            (min (start + k * (C - O) + C) total - (start + k * (C - O)))
      ∧ start + k * (C - O) < total := by
  intro fuel
  induction fuel with
  | zero => intro s k hk; simp [numWindows] at hk
  | succ f ih =>
      intro s k hk
      by_cases hs : s < total
      · simp only [numWindows, if_pos hs] at hk ⊢
        cases k with
        | zero => simpa using hs
        | succ j =>
            rw [List.getD_cons_succ]
            have harith : s + (C - O) + j * (C - O) = s + (j + 1) * (C - O) := by
              rw [Nat.succ_mul]
              omega
            have hrec := ih (s + (C - O)) j (by simpa using hk)
            rw [harith] at hrec
            exact hrec
      · simp [numWindows, hs] at hk

lemma streamLoop_ok (d : PDFDoc) (hr : d.readable = true)
    (cb : Nat → Nat → Except String Unit) :
    ∀ (n s : Nat), s + n ≤ d.pages.length →
    (∀ i, s + 1 ≤ i → i ≤ s + n → cb i d.page_count = .ok ()) →
    (streamLoop d d.page_count (some cb) (List.range' s n)).aborted = none
    ∧ (streamLoop d d.page_count (some cb) (List.range' s n)).yielded.map
        PDFPage.page_number = List.range' (s + 1) n
    ∧ (streamLoop d d.page_count (some cb) (List.range' s n)).cbCalls
      = (List.range' (s + 1) n).map (fun i => (i, d.page_count)) := by
  intro n
  induction n with
  | zero => intro s _ _; simp [streamLoop]
  | succ m ih =>
      intro s hs hcb
      obtain ⟨pg, hpg, hpn⟩ := readable_extract_page d hr s (by omega)
      have hcb1 := hcb (s + 1) (by omega) (by omega)
      have hIH := ih (s + 1) (by omega)
        (fun i hi1 hi2 => hcb i (by omega) (by omega))
      simp only [List.range'_succ, streamLoop, hpg, hcb1]
      refine ⟨hIH.1, ?_, ?_⟩
      · simp only [List.map_cons, hpn, hIH.2.1]
      · simp only [List.map_cons, hIH.2.2]

lemma streamLoop_fail (d : PDFDoc) (hr : d.readable = true)
    (cb : Nat → Nat → Except String Unit) (k : Nat) (msg : String) :
    ∀ (n s : Nat), s + n ≤ d.pages.length →
    s + 1 ≤ k → k ≤ s + n →
    (∀ i, s + 1 ≤ i → i < k → cb i d.page_count = .ok ()) →
    cb k d.page_count = .error msg →
    (streamLoop d d.page_count (some cb) (List.range' s n)).aborted = some msg
    ∧ (streamLoop d d.page_count (some cb) (List.range' s n)).yielded.map
        PDFPage.page_number = List.range' (s + 1) (k - 1 - s)
    ∧ (streamLoop d d.page_count (some cb) (List.range' s n)).cbCalls
      = (List.range' (s + 1) (k - s)).map (fun i => (i, d.page_count)) := by
  intro n
  induction n with
  | zero => intro s _ hk1 hk2 _ _; omega
  | succ m ih =>
      intro s hs hk1 hk2 hok hbad
      obtain ⟨pg, hpg, hpn⟩ := readable_extract_page d hr s (by omega)
      by_cases hks : k = s + 1
      · subst hks
        simp only [List.range'_succ, streamLoop, hpg, hbad]
        have hc0 : s + 1 - 1 - s = 0 := by omega
        have hc1 : s + 1 - s = 1 := by omega
        rw [hc0, hc1]
        simp
      · have hcb1 := hok (s + 1) (by omega) (by omega)
        have hIH := ih (s + 1) (by omega) (by omega) (by omega)
          (fun i hi1 hi2 => hok i (by omega) hi2) hbad
        simp only [List.range'_succ, streamLoop, hpg, hcb1]
        refine ⟨hIH.1, ?_, ?_⟩
        · simp only [List.map_cons, hpn, hIH.2.1]
          have hc : k - 1 - s = (k - 1 - (s + 1)) + 1 := by omega
          rw [hc, List.range'_succ]
        · simp only [List.map_cons, hIH.2.2]
          have hc : k - s = (k - (s + 1)) + 1 := by omega
          rw [hc, List.range'_succ]
          simp

/-! ## Claims -/

/-- C1: `_select_strategy` follows the priority cascade with first match
winning: a critical issue forces `stream_pages` regardless of size,
complexity and page count; otherwise a small simple file gives `full_load`;
otherwise a large or complex or long file gives `chunk_batch`; otherwise
`stream_pages`. -/
theorem claim1_select_strategy_cascade (fs pc : Nat) (cs : ℚ)
    (issues : List PDFIssue) :
    (issues.any (fun issue => issue.severity == "critical") = true →
      _select_strategy fs pc cs issues = "stream_pages")
    ∧ (issues.any (fun issue => issue.severity == "critical") = false →
        fs < 10 * 1024 * 1024 → cs < 50 →
        _select_strategy fs pc cs issues = "full_load")
    ∧ (issues.any (fun issue => issue.severity == "critical") = false →
        ¬(fs < 10 * 1024 * 1024 ∧ cs < 50) →
        (100 * 1024 * 1024 ≤ fs ∨ cs > 70 ∨ pc > 500) →
        _select_strategy fs pc cs issues = "chunk_batch")
    ∧ (issues.any (fun issue => issue.severity == "critical") = false →
        ¬(fs < 10 * 1024 * 1024 ∧ cs < 50) →
        ¬(100 * 1024 * 1024 ≤ fs ∨ cs > 70 ∨ pc > 500) →
        _select_strategy fs pc cs issues = "stream_pages") := by
  refine ⟨fun h => ?_, fun h h1 h2 => ?_, fun h h1 h2 => ?_, fun h h1 h2 => ?_⟩
  · simp [_select_strategy, h]
  · simp [_select_strategy, h, h1, h2]
  · simp [_select_strategy, h, h1, h2]
  · simp [_select_strategy, h, h1, h2]

/-- C1 witness: one critical issue on a small simple file still selects
`stream_pages`. -/
theorem claim1_witness :
    _select_strategy (1024 * 1024) 5 30
      [{ issue_type := "encryption", severity := "critical",
         message := "PDF is encrypted and may require password" }]
      = "stream_pages" :=
  (claim1_select_strategy_cascade (1024 * 1024) 5 30
    [{ issue_type := "encryption", severity := "critical",
       message := "PDF is encrypted and may require password" }]).1 (by decide)

/-- C2: the strategy parameters are derived from recommended memory `R`
(the analysis's `estimated_memory`) and page count `N` as: `full_load` gives
chunk size `N`, memory limit `2R`, time `max 1 (N/10)`; `stream_pages`
gives chunk size 1, memory limit `R/N * 5` (floor division), time `N * 0.5`;
`chunk_batch` gives chunk size 5 when complexity exceeds 70 and 10
otherwise, memory limit `R/N * (chunk_size + 5)`, time `N * 0.3`; and in the
scenario `file_size = 150MB`, `page_count = 500`, `complexity = 50` the
pipeline selects `chunk_batch` with chunk size 10. -/
theorem claim2_strategy_parameters (a : PDFAnalysis) (h : 1 ≤ a.page_count) :
    (a.recommended_strategy = "full_load" →
      select_strategy a = .ok
        { strategy_type := "full_load", chunk_size := a.page_count,
          memory_limit := a.estimated_memory * 2,
          estimated_time := max 1 ((a.page_count : ℚ) / 10) })
    ∧ (a.recommended_strategy = "stream_pages" →
      select_strategy a = .ok
        { strategy_type := "stream_pages", chunk_size := 1,
          memory_limit := a.estimated_memory / a.page_count * 5,
          estimated_time := (a.page_count : ℚ) * (1 / 2) })
    ∧ (a.recommended_strategy = "chunk_batch" →
      select_strategy a = .ok
        { strategy_type := "chunk_batch",
          chunk_size := if a.complexity_score > 70 then 5 else 10,
          memory_limit := a.estimated_memory / a.page_count *
            ((if a.complexity_score > 70 then 5 else 10) + 5),
          estimated_time := (a.page_count : ℚ) * (3 / 10) })
    ∧ (_select_strategy (150 * 1024 * 1024) 500 50 [] = "chunk_batch"
        ∧ ∀ em : Nat, ∃ s, select_strategy
            { file_size := 150 * 1024 * 1024, page_count := 500,
              estimated_memory := em, complexity_score := 50,
              recommended_strategy :=
                _select_strategy (150 * 1024 * 1024) 500 50 [],
              issues := [] } = .ok s
          ∧ s.strategy_type = "chunk_batch" ∧ s.chunk_size = 10) := by
  have hz : a.page_count ≠ 0 := by omega
  have hsel : _select_strategy (150 * 1024 * 1024) 500 50 [] = "chunk_batch" := by
    simp [_select_strategy]
  refine ⟨fun hs => ?_, fun hs => ?_, fun hs => ?_, hsel, fun em => ?_⟩
  · simp [select_strategy, hs]
  · simp [select_strategy, hs, pyFloorDiv, hz]
  · simp [select_strategy, hs, pyFloorDiv, hz]
  · refine ⟨{ strategy_type := "chunk_batch", chunk_size := 10,
              memory_limit := em / 500 * 15,
              estimated_time := ((500 : Nat) : ℚ) * (3 / 10) },
            ?_, rfl, rfl⟩
    simp [select_strategy, hsel, pyFloorDiv]
    exact ⟨by norm_num, Or.inl (by norm_num)⟩

/-- C2 witness at a concrete 10-page `stream_pages` analysis. -/
theorem claim2_witness :
    select_strategy { file_size := 1024, page_count := 10,
                      estimated_memory := 100, complexity_score := 0,
                      recommended_strategy := "stream_pages",
                      issues := [] }
      = .ok { strategy_type := "stream_pages", chunk_size := 1,
              memory_limit := 100 / 10 * 5,
              estimated_time := ((10 : Nat) : ℚ) * (1 / 2) } :=
  (claim2_strategy_parameters
    { file_size := 1024, page_count := 10, estimated_memory := 100,
      complexity_score := 0, recommended_strategy := "stream_pages",
      issues := [] } (by decide)).2.1 rfl

/-- C3: for every file size and `page_count ≥ 1` the memory estimate is
strictly ordered: `min_memory < recommended_memory < peak_memory`. -/
theorem claim3_memory_ordering (fs pc : Nat) (_h : 1 ≤ pc) :
    (estimate_memory_usage fs pc).min_memory
      < (estimate_memory_usage fs pc).recommended_memory
    ∧ (estimate_memory_usage fs pc).recommended_memory
      < (estimate_memory_usage fs pc).peak_memory := by
  simp only [estimate_memory_usage]
  split_ifs <;> exact ⟨by omega, by omega⟩

/-- C3 witness at a 1-page 100KB file. -/
theorem claim3_witness :
    (estimate_memory_usage 102400 1).min_memory
      < (estimate_memory_usage 102400 1).recommended_memory
    ∧ (estimate_memory_usage 102400 1).recommended_memory
      < (estimate_memory_usage 102400 1).peak_memory :=
  claim3_memory_ordering 102400 1 (by decide)

/-- C4: whenever `overlap ≥ chunk_pages`, `chunk_pdf` fails with the
`ValueError` parameter check no matter whether the path exists or what
opening the document would give — the check precedes both, so no document
handle is acquired and no window is yielded. -/
theorem claim4_overlap_check (chunk_pages overlap : Nat) (ex : Bool)
    (openResult : Except String PDFDoc) (h : chunk_pages ≤ overlap) :
    chunk_pdf chunk_pages overlap ex openResult =
      .error (.invalidParameter ("Overlap (" ++ toString overlap
        ++ ") must be less than chunk_pages (" ++ toString chunk_pages ++ ")")) := by
  simp [chunk_pdf, h]

/-- C4 witness: `overlap = 5 ≥ 3 = chunk_pages` fails the same way even on a
missing path whose open would itself fail. -/
theorem claim4_witness :
    chunk_pdf 3 5 false (.error "no engine") =
      .error (.invalidParameter ("Overlap (" ++ toString 5
        ++ ") must be less than chunk_pages (" ++ toString 3 ++ ")")) :=
  claim4_overlap_check 3 5 false (.error "no engine") (by decide)

/-- C5 counterexample: with 4 readable pages, `chunk_pages = 3`,
`overlap = 2`, the stream yields the consecutive windows `[3, 4]` and `[4]`
(both truncated), whose last-2/first-2 page numbers differ — so the claimed
equality does not hold for every pair of consecutive windows. -/
theorem claim5_counterexample :
    chunk_pdf 3 2 true (.ok (trivialDoc 4)) =
      .ok ([[{ page_number := 1, text := "", images := [] },
             { page_number := 2, text := "", images := [] },
             { page_number := 3, text := "", images := [] }],
            [{ page_number := 2, text := "", images := [] },
             { page_number := 3, text := "", images := [] },
             { page_number := 4, text := "", images := [] }],
            [{ page_number := 3, text := "", images := [] },
             { page_number := 4, text := "", images := [] }],
            [{ page_number := 4, text := "", images := [] }]], none)
    ∧ lastN 2 ([{ page_number := 3, text := "", images := [] },
                { page_number := 4, text := "", images := [] }].map
                PDFPage.page_number)
      ≠ ([({ page_number := 4, text := "", images := [] } : PDFPage)].map
          PDFPage.page_number).take 2 := by
  constructor
  · decide
  · decide

/-- C5 (amended): the boundary-duplication equality holds for every pair of
consecutive windows whose first member is a full (untruncated) window of
`chunk_pages` pages: its last `overlap` page numbers equal the next
window's first `overlap` page numbers. -/
theorem claim5_overlap_windows_amended (d : PDFDoc)
    (chunk_pages overlap : Nat) (hO : 0 < overlap)
    (hOC : overlap < chunk_pages) (hr : d.readable = true)
    (ws : List (List PDFPage)) (err : Option String)
    (hrun : chunk_pdf chunk_pages overlap true (.ok d) = .ok (ws, err))
    (k : Nat) (hk : k + 1 < ws.length)
    (hfull : (ws.getD k []).length = chunk_pages) :
    lastN overlap ((ws.getD k []).map PDFPage.page_number)
      = ((ws.getD (k + 1) []).map PDFPage.page_number).take overlap := by
  have hnot : ¬ chunk_pages ≤ overlap := by omega
  have hspec := chunkLoop_spec d hr chunk_pages overlap d.page_count 0
  have hws : ws
      = (chunkLoop d d.page_count chunk_pages overlap 0 d.page_count).1 := by
    simp only [chunk_pdf, if_neg hnot, Bool.not_true, Bool.false_eq_true,
      if_false, Except.ok.injEq] at hrun
    rw [hrun]
  have hnm : ws.map (fun w => w.map PDFPage.page_number)
      = numWindows d.page_count chunk_pages overlap 0 d.page_count := by
    rw [hws]; exact hspec.2
  have hklen : k < ws.length := by omega
  have hk1len : k + 1 < ws.length := hk
  have hlen : (ws.map (fun w => w.map PDFPage.page_number)).length
      = ws.length := List.length_map _ _
  have hget : ∀ (j : Nat) (hj : j < ws.length),
      (ws.getD j []).map PDFPage.page_number
        = (ws.map (fun w => w.map PDFPage.page_number)).getD j [] := by
    intro j hj
    rw [List.getD_eq_getElem _ _ hj, List.getD_eq_getElem _ _ (by omega),
      List.getElem_map]
  obtain ⟨hwk, hlt⟩ := numWindows_getD d.page_count chunk_pages overlap
    d.page_count 0 k (by rw [← hnm, hlen]; exact hklen)
  obtain ⟨hwk1, hlt1⟩ := numWindows_getD d.page_count chunk_pages overlap
    d.page_count 0 (k + 1) (by rw [← hnm, hlen]; exact hk1len)
  rw [hget k hklen, hget (k + 1) hk1len, hnm, hwk, hwk1]
  set step := chunk_pages - overlap with hstep
  set km := k * step with hkm
  have hkm1 : (k + 1) * step = km + step := by rw [Nat.succ_mul]
  rw [hkm1] at hwk1 hlt1 ⊢
  -- the k-th window is full: its page-number count is chunk_pages
  have hfullnum : min (0 + km + chunk_pages) d.page_count - (0 + km)
      = chunk_pages := by
    have := hget k hklen
    rw [hnm, hwk] at this
    have hlenk : ((ws.getD k []).map PDFPage.page_number).length
        = (ws.getD k []).length := List.length_map _ _
    rw [this] at hlenk
    rw [List.length_range'] at hlenk
    omega
  have htot : km + chunk_pages ≤ d.page_count := by omega
  -- the (k+1)-st window holds at least `overlap` pages
  have hm1 : overlap ≤ min (0 + (km + step) + chunk_pages) d.page_count
      - (0 + (km + step)) := by omega
  rw [hfullnum]
  unfold lastN
  rw [List.length_range', range'_drop, range'_take]
  congr 1 <;> omega

/-- C5 witness for the amended statement: 5 readable pages, `chunk_pages =
3`, `overlap = 1` give windows `[1,2,3]`, `[3,4,5]`, `[5]`; window 0 is full
and shares page 3 with window 1. -/
theorem claim5_witness :
    lastN 1 ([1, 2, 3] : List Nat) = ([3, 4, 5] : List Nat).take 1 :=
  claim5_overlap_windows_amended (trivialDoc 5) 3 1 (by decide) (by decide)
    (by decide)
    [[{ page_number := 1, text := "", images := [] },
      { page_number := 2, text := "", images := [] },
      { page_number := 3, text := "", images := [] }],
     [{ page_number := 3, text := "", images := [] },
      { page_number := 4, text := "", images := [] },
      { page_number := 5, text := "", images := [] }],
     [{ page_number := 5, text := "", images := [] }]] none
    (by decide) 0 (by decide) (by decide)

/-- C6: for `0 ≤ overlap < chunk_pages` over a readable document the stream
completes without error, and concatenating the non-overlap portion (the
first `chunk_pages - overlap` page numbers) of every window reconstructs
the full 1-based page sequence exactly once per page, gap-free; in
particular 25 pages with `chunk_pages = 10, overlap = 0` give exactly 3
chunks of sizes 10, 10, 5. -/
theorem claim6_chunk_partition (d : PDFDoc) (chunk_pages overlap : Nat)
    (hOC : overlap < chunk_pages) (hr : d.readable = true) :
    (∃ ws, chunk_pdf chunk_pages overlap true (.ok d) = .ok (ws, none)
      ∧ (ws.map (fun w =>
            (w.map PDFPage.page_number).take (chunk_pages - overlap))).flatten
        = List.range' 1 d.page_count)
    ∧ (chunk_pdf 10 0 true (.ok (trivialDoc 25))).map
        (fun r => r.1.map List.length) = .ok [10, 10, 5] := by
  constructor
  · have hnot : ¬ chunk_pages ≤ overlap := by omega
    have hspec := chunkLoop_spec d hr chunk_pages overlap d.page_count 0
    refine ⟨(chunkLoop d d.page_count chunk_pages overlap 0 d.page_count).1,
      ?_, ?_⟩
    · simp only [chunk_pdf, if_neg hnot, Bool.not_true, Bool.false_eq_true,
        if_false, Except.ok.injEq]
      rw [← hspec.1]
    · have hcomp : (chunkLoop d d.page_count chunk_pages overlap 0
            d.page_count).1.map (fun w =>
              (w.map PDFPage.page_number).take (chunk_pages - overlap))
          = ((chunkLoop d d.page_count chunk_pages overlap 0
              d.page_count).1.map (fun w => w.map PDFPage.page_number)).map
                (fun l => l.take (chunk_pages - overlap)) := by
        rw [List.map_map]
        rfl
      rw [hcomp, hspec.2]
      have := numWindows_flatten d.page_count chunk_pages overlap hOC
        d.page_count 0 (by omega)
      simpa using this
  · decide

/-- C6 witness at 7 readable pages, `chunk_pages = 3`, `overlap = 1`. -/
theorem claim6_witness :
    (∃ ws, chunk_pdf 3 1 true (.ok (trivialDoc 7)) = .ok (ws, none)
      ∧ (ws.map (fun w =>
            (w.map PDFPage.page_number).take (3 - 1))).flatten
        = List.range' 1 (trivialDoc 7).page_count)
    ∧ (chunk_pdf 10 0 true (.ok (trivialDoc 25))).map
        (fun r => r.1.map List.length) = .ok [10, 10, 5] :=
  claim6_chunk_partition (trivialDoc 7) 3 1 (by decide) (by decide)

/-- C7 counterexample: with 2 readable pages and a callback that raises on
its first invocation, the stream aborts with the callback's exception and
yields no page at all — a callback failure does abort the stream, and the
current and remaining pages are not yielded. -/
theorem claim7_counterexample :
    stream_pdf_pages true (.ok (trivialDoc 2))
        (some (fun _ _ => Except.error "callback boom"))
      = .ok { yielded := [], cbCalls := [(1, 2)],
              aborted := some "callback boom" }
    ∧ ({ yielded := [], cbCalls := [(1, 2)],
         aborted := some "callback boom" } : StreamRun).yielded
      ≠ [{ page_number := 1, text := "", images := [] },
         { page_number := 2, text := "", images := [] }] := by
  constructor
  · decide
  · decide

/-- C7 (amended): the progress callback is invoked once per page with
`(current, total)` before the page is yielded; when it never raises, every
page is yielded in order; but an exception raised by the callback on page
`k` propagates and aborts the stream — only pages `1 … k-1` are yielded. -/
theorem claim7_callback_amended (d : PDFDoc) (hr : d.readable = true)
    (cb : Nat → Nat → Except String Unit) :
    ((∀ i, cb i d.page_count = .ok ()) →
      ∃ run, stream_pdf_pages true (.ok d) (some cb) = .ok run
        ∧ run.yielded.map PDFPage.page_number = List.range' 1 d.page_count
        ∧ run.cbCalls = (List.range' 1 d.page_count).map
            (fun i => (i, d.page_count))
        ∧ run.aborted = none)
    ∧ (∀ k msg, 1 ≤ k → k ≤ d.page_count →
        (∀ i, 1 ≤ i → i < k → cb i d.page_count = .ok ()) →
        cb k d.page_count = .error msg →
        ∃ run, stream_pdf_pages true (.ok d) (some cb) = .ok run
          ∧ run.yielded.map PDFPage.page_number = List.range' 1 (k - 1)
          ∧ run.cbCalls = (List.range' 1 k).map (fun i => (i, d.page_count))
          ∧ run.aborted = some msg) := by
  have hlen : d.page_count = d.pages.length := rfl
  constructor
  · intro hok
    have hlemma := streamLoop_ok d hr cb d.page_count 0 (by omega)
      (fun i _ _ => hok i)
    refine ⟨_, rfl, ?_, ?_, ?_⟩ <;>
      rw [List.range_eq_range']
    · simpa using hlemma.2.1
    · simpa using hlemma.2.2
    · simpa using hlemma.1
  · intro k msg hk1 hk2 hok hbad
    have hlemma := streamLoop_fail d hr cb k msg d.page_count 0 (by omega)
      (by omega) (by omega) (fun i hi1 hi2 => hok i (by omega) hi2) hbad
    refine ⟨_, rfl, ?_, ?_, ?_⟩ <;>
      rw [List.range_eq_range']
    · simpa using hlemma.2.1
    · simpa using hlemma.2.2
    · simpa using hlemma.1

/-- C7 witness for the amended statement: a never-raising callback on 2
readable pages yields both pages and is called with `(1,2)` then `(2,2)`. -/
theorem claim7_witness :
    ∃ run, stream_pdf_pages true (.ok (trivialDoc 2))
        (some (fun _ _ => Except.ok ())) = .ok run
      ∧ run.yielded.map PDFPage.page_number
          = List.range' 1 (trivialDoc 2).page_count
      ∧ run.cbCalls = (List.range' 1 (trivialDoc 2).page_count).map
          (fun i => (i, (trivialDoc 2).page_count))
      ∧ run.aborted = none :=
  (claim7_callback_amended (trivialDoc 2) (by decide)
    (fun _ _ => Except.ok ())).1 (fun _ => rfl)

/-- C8: the complexity score lies in `[0, 100]` for every document, file
size and page count. -/
theorem claim8_complexity_bounds (doc : PDFDoc) (fs pc : Nat) :
    0 ≤ _calculate_complexity_score doc fs pc
    ∧ _calculate_complexity_score doc fs pc ≤ 100 := by
  constructor
  · refine le_min ?_ (by norm_num)
    have h1 := complexityFactorSize_nonneg fs pc
    have h2 := complexityFactorPages_nonneg pc
    have h3 := complexitySampleFailures_nonneg doc pc
    have h4 := complexityImageScore_nonneg doc pc
    have h5 := complexityFontScore_nonneg doc pc
    have h6 := complexityFactorMeta_nonneg doc
    have h7 := complexityFactorFormat_nonneg doc
    linarith
  · exact min_le_right _ _

/-- C9: `select_strategy` never reaches its divisions' error case when
`page_count ≥ 1`, but with `page_count = 0` and a `stream_pages` or
`chunk_batch` recommendation the call fails with `ZeroDivisionError`
instead of returning a strategy. -/
theorem claim9_division_guard (a : PDFAnalysis) :
    (1 ≤ a.page_count → ∃ s, select_strategy a = .ok s)
    ∧ (a.page_count = 0 →
        (a.recommended_strategy = "stream_pages"
          ∨ a.recommended_strategy = "chunk_batch") →
        select_strategy a = .error .zeroDivision) := by
  constructor
  · intro h
    have hz : a.page_count ≠ 0 := by omega
    cases hres : select_strategy a with
    | ok s => exact ⟨s, rfl⟩
    | error e =>
        exfalso
        simp only [select_strategy, pyFloorDiv, if_neg hz] at hres
        split at hres <;> simp at hres
        split at hres <;> simp at hres
  · intro h0 hs
    rcases hs with hs | hs <;> simp [select_strategy, hs, pyFloorDiv, h0]

/-- C9 witness: a 0-page analysis recommending `stream_pages` hits the
division by zero. -/
theorem claim9_witness :
    select_strategy { file_size := 0, page_count := 0, estimated_memory := 0,
                      complexity_score := 0,
                      recommended_strategy := "stream_pages",
                      issues := [] } = .error .zeroDivision :=
  (claim9_division_guard _).2 rfl (Or.inl rfl)

/-- C10: when the path exists but the engine cannot open it,
`detect_pdf_issues` returns (instead of raising) a single critical
corruption issue "Cannot open PDF", while `assess_pdf` raises the
`ValueError` "Invalid PDF file" for the same open failure. -/
theorem claim10_open_failure (e : String) (fs : Nat) :
    detect_pdf_issues true (.error e) =
      .ok [{ issue_type := "corruption", severity := "critical",
             message := "Cannot open PDF: " ++ e, page_number := none }]
    ∧ assess_pdf true fs (.error e) =
      .error (.invalidPDF ("Invalid PDF file: " ++ e)) :=
  ⟨rfl, rfl⟩

/-- C10 witness at a concrete open failure. -/
theorem claim10_witness :
    detect_pdf_issues true (.error "broken xref table") =
      .ok [{ issue_type := "corruption", severity := "critical",
             message := "Cannot open PDF: " ++ "broken xref table",
             page_number := none }]
    ∧ assess_pdf true 4096 (.error "broken xref table") =
      .error (.invalidPDF ("Invalid PDF file: " ++ "broken xref table")) :=
  claim10_open_failure "broken xref table" 4096

end PdfLargeReader
